import Mathlib

/- Verification of the YouTube transcript tool (tools/fetch_youtube.py):
   regex-based video ID extraction, transcript fetching with a fallback
   selection policy, and the CLI wrapper with its exit codes.
   Strings are modelled as lists of characters; the external transcript
   service is a parameter recording what its listing and fetch stages do. -/

namespace FetchYoutube

/-- Characters allowed in a YouTube video ID: the regex character class
of ASCII letters, digits, underscore and hyphen. -/
def isIdChar (c : Char) : Bool :=
  c.isAlpha || c.isDigit || c == '_' || c == '-'

/-- ASCII whitespace characters removed by Python str.strip. -/
def pyIsSpace (c : Char) : Bool :=
  c == ' ' || c == '\t' || c == '\n' || c == '\r' || c == '\x0b' || c == '\x0c'

/-- Python str.strip: drop leading and trailing whitespace. -/
def pyStrip (s : List Char) : List Char :=
  ((s.dropWhile pyIsSpace).reverse.dropWhile pyIsSpace).reverse

/-- Python re.match of the anchored eleven ID character pattern: the whole
string is 11 ID characters, or, because a dollar anchor in Python also
matches just before one final newline, 11 ID characters then a newline. -/
def matchesRawId (s : List Char) : Bool :=
  (s.length == 11 && s.all isIdChar) ||
    (s.length == 12 && (s.take 11).all isIdChar && s.getLast? == some '\n')

/-- Literal pattern test at the head of the string. -/
def isStart : List Char → List Char → Bool
  | [], _ => true
  | _ :: _, [] => false
  | p :: ps, c :: cs => p == c && isStart ps cs

/-- Match, at a fixed position, a pattern made of a literal marker followed
by a capturing group of exactly 11 ID characters. -/
def matchAt (marker s : List Char) : Option (List Char) :=
  if isStart marker s then
    if ((s.drop marker.length).take 11).length == 11 &&
        ((s.drop marker.length).take 11).all isIdChar then
      some ((s.drop marker.length).take 11)
    else none
  else none

/-- Python re.search of a literal marker pattern: try every start position
from the left and return the capture of the first position that matches. -/
def searchSimple (marker : List Char) : List Char → Option (List Char)
  | [] => matchAt marker []
  | c :: cs =>
    match matchAt marker (c :: cs) with
    | some cap => some cap
    | none => searchSimple marker cs

/-- Match the letter v, equals sign and an 11 ID character capture at a
fixed position of the remainder after a watch marker. -/
def vEqCapAt (rest : List Char) : Option (List Char) :=
  if isStart [ 'v', '='] rest then
    if ((rest.drop 2).take 11).length == 11 &&
        ((rest.drop 2).take 11).all isIdChar then
      some ((rest.drop 2).take 11)
    else none
  else none

/-- Greedy dot star before the v equals capture: the regex engine consumes
as much of the line as possible and backtracks, so the capture comes from
the last position, not past a newline, where the v equals capture matches. -/
def greedyVEq : List Char → Option (List Char)
  | [] => none
  | c :: cs =>
    if c == '\n' then vEqCapAt (c :: cs)
    else
      match greedyVEq cs with
      | some cap => some cap
      | none => vEqCapAt (c :: cs)

/-- Marker of the first URL pattern, up to its dot star. -/
def watchMarker : List Char := ("youtube.com/watch?").toList

/-- Marker of the second URL pattern. -/
def youtuBeMarker : List Char := ("youtu.be/").toList

/-- Marker of the third URL pattern. -/
def embedMarker : List Char := ("youtube.com/embed/").toList

/-- Marker of the fourth URL pattern. -/
def vMarker : List Char := ("youtube.com/v/").toList

/-- Marker of the fifth URL pattern. -/
def shortsMarker : List Char := ("youtube.com/shorts/").toList

/-- Match the whole watch pattern at a fixed position. -/
def matchWatchAt (s : List Char) : Option (List Char) :=
  if isStart watchMarker s then greedyVEq (s.drop watchMarker.length) else none

/-- Python re.search of the watch pattern: leftmost start position wins. -/
def searchWatch : List Char → Option (List Char)
  | [] => matchWatchAt []
  | c :: cs =>
    match matchWatchAt (c :: cs) with
    | some cap => some cap
    | none => searchWatch cs

/-- The extract video id function of tools/fetch_youtube.py: strip the
input, accept a raw 11 character ID whole, otherwise try the five URL
patterns in their listed order and return the first capture found. -/
def extract_video_id (url_or_id : List Char) : Option (List Char) :=
  if matchesRawId (pyStrip url_or_id) then some (pyStrip url_or_id)
  else
    match searchWatch (pyStrip url_or_id) with
    | some v => some v
    | none =>
      match searchSimple youtuBeMarker (pyStrip url_or_id) with
      | some v => some v
      | none =>
        match searchSimple embedMarker (pyStrip url_or_id) with
        | some v => some v
        | none =>
          match searchSimple vMarker (pyStrip url_or_id) with
          | some v => some v
          | none =>
            match searchSimple shortsMarker (pyStrip url_or_id) with
            | some v => some v
            | none => none

/-- One transcript track offered by the upstream listing: its language
code and whether it is auto-generated. -/
structure TranscriptTrack where
  language_code : List Char
  is_generated : Bool
  deriving DecidableEq

/-- One raw transcript entry with fields text, start and duration; the
floating point timestamps are modelled as rationals, the tool only carries
them through and never computes on them. -/
structure TranscriptEntry where
  text : List Char
  start : Rat
  duration : Rat
  deriving DecidableEq

/-- Exceptions the external transcript service can raise, with the string
an exception converts to; otherError stands for every other exception. -/
inductive PyExc where
  | noTranscriptFound (msg : List Char)
  | transcriptsDisabled (msg : List Char)
  | videoUnavailable (msg : List Char)
  | stopIteration (msg : List Char)
  | otherError (msg : List Char)
  deriving DecidableEq

/-- String conversion of a caught exception. -/
def PyExc.message : PyExc → List Char
  | .noTranscriptFound m => m
  | .transcriptsDisabled m => m
  | .videoUnavailable m => m
  | .stopIteration m => m
  | .otherError m => m

/-- The flat error code enumeration of the tool. -/
inductive ErrorCode where
  | NO_TRANSCRIPT
  | TRANSCRIPT_DISABLED
  | VIDEO_NOT_FOUND
  | NETWORK_ERROR
  | INVALID_URL
  deriving DecidableEq

/-- The Result record: the success variant carries video id, url,
transcript entries, full text and language; the failure variant carries
the error message and the error code. -/
inductive FetchResult where
  | ok (video_id url : List Char) (transcript : List TranscriptEntry)
      (full_text language : List Char)
  | err (error : List Char) (error_code : ErrorCode)
  deriving DecidableEq

/-- The success field of a Result. -/
def isSuccess : FetchResult → Bool
  | .ok .. => true
  | .err .. => false

/-- Behaviour of the external transcript service during one invocation:
what the listing call returns or raises, and what fetching the raw entries
of a selected track returns or raises. -/
structure ServiceBehavior where
  listing : Except PyExc (List TranscriptTrack)
  fetchEntries : TranscriptTrack → Except PyExc (List TranscriptEntry)

/-- The language preference list passed to the selection calls. -/
def enLangs : List (List Char) := [("en").toList, ("en-US").toList, ("en-GB").toList]

/-- First track of the requested origin whose language code hits earliest
in the preference list. -/
def findLang (tl : List TranscriptTrack) (gen : Bool) :
    List (List Char) → Option TranscriptTrack
  | [] => none
  | l :: ls =>
    match tl.find? (fun t => t.language_code == l && t.is_generated == gen) with
    | some t => some t
    | none => findLang tl gen ls

/-- Modelled from the spec: the external library call requesting a
manually-authored transcript in the given language preference order, as
offered by the upstream listing; raises NoTranscriptFound when none is
offered. The library itself is outside this repository. -/
def find_transcript (tl : List TranscriptTrack) (langs : List (List Char)) :
    Except PyExc TranscriptTrack :=
  match findLang tl false langs with
  | some t => .ok t
  | none => .error (.noTranscriptFound [])

/-- Modelled from the spec: the external library call requesting an
auto-generated transcript in the given language preference order; raises
NoTranscriptFound when none is offered. -/
def find_generated_transcript (tl : List TranscriptTrack) (langs : List (List Char)) :
    Except PyExc TranscriptTrack :=
  match findLang tl true langs with
  | some t => .ok t
  | none => .error (.noTranscriptFound [])

/-- The first track of the listing, as next of iter obtains it; raises
StopIteration, whose message is empty, when the listing has no tracks. -/
def nextIter (tl : List TranscriptTrack) : Except PyExc TranscriptTrack :=
  match tl with
  | [] => .error (.stopIteration [])
  | t :: _ => .ok t

/-- The nested selection of fetch transcript: find a transcript in the
preferred languages, on NoTranscriptFound find a generated one, on
NoTranscriptFound again take the first available track. -/
def selectTranscript (tl : List TranscriptTrack) : Except PyExc TranscriptTrack :=
  match find_transcript tl enLangs with
  | .ok t => .ok t
  | .error (.noTranscriptFound _) =>
    match find_generated_transcript tl enLangs with
    | .ok t => .ok t
    | .error (.noTranscriptFound _) => nextIter tl
    | .error e => .error e
  | .error e => .error e

/-- Body of the outer try of fetch transcript: the listing call followed
by track selection. -/
def listAndSelect (svc : ServiceBehavior) : Except PyExc TranscriptTrack :=
  match svc.listing with
  | .error e => .error e
  | .ok tl => selectTranscript tl

/-- The fetch transcript function of tools/fetch_youtube.py: list and
select a track, mapping the named exceptions and then any other exception
to failure Results, then fetch the raw entries and build the success
Result, mapping any exception of that stage to a network error Result.
It is a total function into FetchResult: no exception escapes it. -/
def fetch_transcript (svc : ServiceBehavior) (video_id : List Char) : FetchResult :=
  match listAndSelect svc with
  | .error (.noTranscriptFound _) =>
    .err (("No transcript available for this video").toList) .NO_TRANSCRIPT
  | .error (.transcriptsDisabled _) =>
    .err (("Transcripts are disabled for this video").toList) .TRANSCRIPT_DISABLED
  | .error (.videoUnavailable _) =>
    .err (("Video not found or unavailable").toList) .VIDEO_NOT_FOUND
  | .error e =>
    .err (("Network or API error: ").toList ++ e.message) .NETWORK_ERROR
  | .ok track =>
    match svc.fetchEntries track with
    | .ok entries =>
      .ok video_id (("https://youtube.com/watch?v=").toList ++ video_id) entries
        (List.intercalate ((" ").toList) (entries.map TranscriptEntry.text))
        track.language_code
    | .error e =>
      .err (("Failed to fetch transcript: ").toList ++ e.message) .NETWORK_ERROR

/-- The main function of tools/fetch_youtube.py for a given url argument
and service behaviour: the Result printed and the process exit code. A
falsy extraction result, None or the empty string, yields the invalid URL
failure and exit code 1; otherwise the fetch Result decides the code. -/
def main (svc : ServiceBehavior) (url : List Char) : FetchResult × Nat :=
  match extract_video_id url with
  | none =>
    (.err ((("Could not extract video ID from: ").toList) ++ url) .INVALID_URL, 1)
  | some vid =>
    if vid.isEmpty then
      (.err ((("Could not extract video ID from: ").toList) ++ url) .INVALID_URL, 1)
    else
      (fetch_transcript svc vid,
        if isSuccess (fetch_transcript svc vid) then 0 else 1)

/-- Group list of a successful match of a literal marker pattern; each of
the five URL patterns has exactly one capturing group. -/
def groupsOfSimple (marker s : List Char) : Option (List (List Char)) :=
  (searchSimple marker s).map (fun c => [c])

/-- Group list of a successful match of the watch pattern. -/
def groupsOfWatch (s : List Char) : Option (List (List Char)) :=
  (searchWatch s).map (fun c => [c])

/-- Group one of a match object: raises IndexError when the match carries
no capturing group. -/
def group1 (groups : List (List Char)) : Except PyExc (List Char) :=
  match groups.head? with
  | some g => .ok g
  | none => .error (.otherError (("no such group").toList))

/-- The extract video id function with its one fallible step, reading
group one of a match object, made explicit in an exception monad; every
other operation it performs is total. -/
def extract_video_idE (url_or_id : List Char) : Except PyExc (Option (List Char)) :=
  if matchesRawId (pyStrip url_or_id) then .ok (some (pyStrip url_or_id))
  else
    match groupsOfWatch (pyStrip url_or_id) with
    | some gs => (group1 gs).map some
    | none =>
      match groupsOfSimple youtuBeMarker (pyStrip url_or_id) with
      | some gs => (group1 gs).map some
      | none =>
        match groupsOfSimple embedMarker (pyStrip url_or_id) with
        | some gs => (group1 gs).map some
        | none =>
          match groupsOfSimple vMarker (pyStrip url_or_id) with
          | some gs => (group1 gs).map some
          | none =>
            match groupsOfSimple shortsMarker (pyStrip url_or_id) with
            | some gs => (group1 gs).map some
            | none => .ok none

/-- Whether the pattern occurs at the given index of the string. -/
def occursAt (pat s : List Char) (i : Nat) : Bool :=
  isStart pat (s.drop i)

/-! Helper lemmas about the extraction functions. -/

lemma head?_dropWhile_not (p : Char → Bool) (l : List Char) (c : Char)
    (h : (l.dropWhile p).head? = some c) : p c = false := by
  induction l with
  | nil => simp [List.dropWhile] at h
  | cons a as ih =>
    by_cases hp : p a
    · rw [List.dropWhile_cons_of_pos hp] at h
      exact ih h
    · rw [List.dropWhile_cons_of_neg hp] at h
      simp at h
      subst h
      exact Bool.of_not_eq_true hp

lemma pyStrip_getLast_not_space (s : List Char) (c : Char)
    (h : (pyStrip s).getLast? = some c) : pyIsSpace c = false := by
  unfold pyStrip at h
  rw [List.getLast?_reverse] at h
  exact head?_dropWhile_not pyIsSpace _ c h

lemma matchAt_shape (marker s v : List Char) (h : matchAt marker s = some v) :
    v.length = 11 ∧ v.all isIdChar = true := by
  unfold matchAt at h
  split at h
  · split at h
    · rename_i hcond
      cases h
      simp only [Bool.and_eq_true, beq_iff_eq] at hcond
      exact ⟨hcond.1, hcond.2⟩
    · cases h
  · cases h

lemma searchSimple_shape (marker : List Char) :
    ∀ s v, searchSimple marker s = some v → v.length = 11 ∧ v.all isIdChar = true := by
  intro s
  induction s with
  | nil =>
    intro v h
    unfold searchSimple at h
    exact matchAt_shape marker [] v h
  | cons a as ih =>
    intro v h
    unfold searchSimple at h
    cases hm : matchAt marker (a :: as) with
    | some cap =>
      rw [hm] at h
      cases h
      exact matchAt_shape marker (a :: as) _ hm
    | none =>
      rw [hm] at h
      exact ih v h

lemma vEqCapAt_shape (rest v : List Char) (h : vEqCapAt rest = some v) :
    v.length = 11 ∧ v.all isIdChar = true := by
  unfold vEqCapAt at h
  split at h
  · split at h
    · rename_i hcond
      cases h
      simp only [Bool.and_eq_true, beq_iff_eq] at hcond
      exact ⟨hcond.1, hcond.2⟩
    · cases h
  · cases h

lemma greedyVEq_shape :
    ∀ rest v, greedyVEq rest = some v → v.length = 11 ∧ v.all isIdChar = true := by
  intro rest
  induction rest with
  | nil =>
    intro v h
    unfold greedyVEq at h
    cases h
  | cons a as ih =>
    intro v h
    unfold greedyVEq at h
    split at h
    · exact vEqCapAt_shape _ v h
    · cases hg : greedyVEq as with
      | some cap =>
        rw [hg] at h
        cases h
        exact ih _ hg
      | none =>
        rw [hg] at h
        exact vEqCapAt_shape _ v h

lemma matchWatchAt_shape (s v : List Char) (h : matchWatchAt s = some v) :
    v.length = 11 ∧ v.all isIdChar = true := by
  unfold matchWatchAt at h
  split at h
  · exact greedyVEq_shape _ v h
  · cases h

lemma searchWatch_shape :
    ∀ s v, searchWatch s = some v → v.length = 11 ∧ v.all isIdChar = true := by
  intro s
  induction s with
  | nil =>
    intro v h
    unfold searchWatch at h
    exact matchWatchAt_shape [] v h
  | cons a as ih =>
    intro v h
    unfold searchWatch at h
    cases hm : matchWatchAt (a :: as) with
    | some cap =>
      rw [hm] at h
      cases h
      exact matchWatchAt_shape (a :: as) _ hm
    | none =>
      rw [hm] at h
      exact ih v h

lemma matchesRawId_of_strip (s : List Char) (h : matchesRawId (pyStrip s) = true) :
    (pyStrip s).length = 11 ∧ (pyStrip s).all isIdChar = true := by
  unfold matchesRawId at h
  simp only [Bool.or_eq_true, Bool.and_eq_true, beq_iff_eq] at h
  rcases h with h | h
  · exact ⟨h.1, h.2⟩
  · exact absurd (pyStrip_getLast_not_space s '\n' h.2) (by simp [pyIsSpace])

/-! Theorems for the claims about the ID extractor. -/

/-- C2: for every input string whose whole trimmed content is exactly 11
characters drawn from ASCII letters, digits, underscore and hyphen, the
extract video id function returns that trimmed string unchanged. -/
theorem extract_id_raw_unchanged (s : List Char)
    (h1 : (pyStrip s).length = 11) (h2 : (pyStrip s).all isIdChar = true) :
    extract_video_id s = some (pyStrip s) := by
  unfold extract_video_id
  have hm : matchesRawId (pyStrip s) = true := by
    unfold matchesRawId
    simp [h1, h2]
  rw [if_pos hm]

/-- Witness for C2 at the concrete raw ID input. -/
theorem extract_id_raw_unchanged_witness :
    extract_video_id (("dQw4w9WgXcQ").toList) =
      some (pyStrip (("dQw4w9WgXcQ").toList)) :=
  extract_id_raw_unchanged (("dQw4w9WgXcQ").toList) (by decide) (by decide)

/-- C9: whenever the extract video id function returns a value, that value
is a string of exactly 11 characters, each an ASCII letter, digit,
underscore or hyphen, on the raw ID branch and on every pattern branch. -/
theorem extract_id_output_shape (s v : List Char)
    (h : extract_video_id s = some v) :
    v.length = 11 ∧ v.all isIdChar = true := by
  unfold extract_video_id at h
  by_cases hr : matchesRawId (pyStrip s) = true
  · rw [if_pos hr] at h
    cases h
    exact matchesRawId_of_strip s hr
  · rw [if_neg hr] at h
    cases h1 : searchWatch (pyStrip s) with
    | some cap =>
      rw [h1] at h
      cases h
      exact searchWatch_shape _ _ h1
    | none =>
    rw [h1] at h
    cases h2 : searchSimple youtuBeMarker (pyStrip s) with
    | some cap =>
      rw [h2] at h
      cases h
      exact searchSimple_shape _ _ _ h2
    | none =>
    rw [h2] at h
    cases h3 : searchSimple embedMarker (pyStrip s) with
    | some cap =>
      rw [h3] at h
      cases h
      exact searchSimple_shape _ _ _ h3
    | none =>
    rw [h3] at h
    cases h4 : searchSimple vMarker (pyStrip s) with
    | some cap =>
      rw [h4] at h
      cases h
      exact searchSimple_shape _ _ _ h4
    | none =>
    rw [h4] at h
    cases h5 : searchSimple shortsMarker (pyStrip s) with
    | some cap =>
      rw [h5] at h
      cases h
      exact searchSimple_shape _ _ _ h5
    | none =>
      rw [h5] at h
      cases h

/-- Witness for C9 at a concrete URL input. -/
theorem extract_id_output_shape_witness :
    (("dQw4w9WgXcQ").toList).length = 11 ∧
      (("dQw4w9WgXcQ").toList).all isIdChar = true :=
  extract_id_output_shape (("https://youtu.be/dQw4w9WgXcQ").toList)
    (("dQw4w9WgXcQ").toList) (by decide)

/-- C8: the extract video id function never raises: the variant with its
fallible group lookup made explicit always returns ok, and agrees with the
total function on every input string. -/
theorem extract_id_never_raises (s : List Char) :
    extract_video_idE s = Except.ok (extract_video_id s) := by
  unfold extract_video_idE extract_video_id groupsOfWatch groupsOfSimple
  by_cases hr : matchesRawId (pyStrip s) = true
  · rw [if_pos hr, if_pos hr]
  · rw [if_neg hr, if_neg hr]
    cases h1 : searchWatch (pyStrip s) with
    | some cap => simp [group1, Except.map]
    | none =>
    simp only [Option.map_none']
    cases h2 : searchSimple youtuBeMarker (pyStrip s) with
    | some cap => simp [group1, Except.map]
    | none =>
    simp only [Option.map_none']
    cases h3 : searchSimple embedMarker (pyStrip s) with
    | some cap => simp [group1, Except.map]
    | none =>
    simp only [Option.map_none']
    cases h4 : searchSimple vMarker (pyStrip s) with
    | some cap => simp [group1, Except.map]
    | none =>
    simp only [Option.map_none']
    cases h5 : searchSimple shortsMarker (pyStrip s) with
    | some cap => simp [group1, Except.map]
    | none => simp

/-- Demonstration input for the pattern priority order: a youtu.be link,
at index 8, appears before a watch link, at index 41, in the same string. -/
def exPriority : List Char :=
  ("https://youtu.be/AAAAAAAAAAA and https://youtube.com/watch?v=BBBBBBBBBBB").toList

/-- C3: for inputs that are not raw IDs, the extract video id function
returns the capture of the first of the five URL patterns, in their fixed
priority order, that matches anywhere in the string; on the demonstration
input, holding a youtu.be marker at index 8 before a watch marker at index
41, the watch capture wins over the positionally earlier youtu.be one. -/
theorem extract_id_pattern_priority :
    (∀ s, matchesRawId (pyStrip s) = false →
      extract_video_id s =
        (searchWatch (pyStrip s)).orElse (fun _ =>
          (searchSimple youtuBeMarker (pyStrip s)).orElse (fun _ =>
            (searchSimple embedMarker (pyStrip s)).orElse (fun _ =>
              (searchSimple vMarker (pyStrip s)).orElse (fun _ =>
                searchSimple shortsMarker (pyStrip s)))))) ∧
    occursAt youtuBeMarker exPriority 8 = true ∧
    occursAt watchMarker exPriority 41 = true ∧
    8 < 41 ∧
    searchSimple youtuBeMarker (pyStrip exPriority) = some (("AAAAAAAAAAA").toList) ∧
    extract_video_id exPriority = some (("BBBBBBBBBBB").toList) := by
  refine ⟨?_, by decide, by decide, by decide, by decide, by decide⟩
  intro s hraw
  unfold extract_video_id
  rw [if_neg (by simp [hraw])]
  cases h1 : searchWatch (pyStrip s) with
  | some cap => rfl
  | none =>
  simp only [Option.orElse]
  cases h2 : searchSimple youtuBeMarker (pyStrip s) with
  | some cap => rfl
  | none =>
  cases h3 : searchSimple embedMarker (pyStrip s) with
  | some cap => rfl
  | none =>
  cases h4 : searchSimple vMarker (pyStrip s) with
  | some cap => rfl
  | none =>
  cases h5 : searchSimple shortsMarker (pyStrip s) with
  | some cap => rfl
  | none => rfl

/-- Witness for C3, discharging the raw ID hypothesis at a concrete URL. -/
theorem extract_id_pattern_priority_witness :
    extract_video_id (("https://youtu.be/dQw4w9WgXcQ").toList) =
      (searchWatch (pyStrip (("https://youtu.be/dQw4w9WgXcQ").toList))).orElse (fun _ =>
        (searchSimple youtuBeMarker (pyStrip (("https://youtu.be/dQw4w9WgXcQ").toList))).orElse (fun _ =>
          (searchSimple embedMarker (pyStrip (("https://youtu.be/dQw4w9WgXcQ").toList))).orElse (fun _ =>
            (searchSimple vMarker (pyStrip (("https://youtu.be/dQw4w9WgXcQ").toList))).orElse (fun _ =>
              searchSimple shortsMarker (pyStrip (("https://youtu.be/dQw4w9WgXcQ").toList)))))) :=
  extract_id_pattern_priority.1 (("https://youtu.be/dQw4w9WgXcQ").toList) (by decide)

/-! Theorems for the claims about the transcript fetcher. -/

/-- Shared inversion of a success Result of fetch transcript: its video id
is the argument, its url is the canonical watch url of that id, and its
full text is the space joined concatenation of its entries' texts. -/
lemma fetch_transcript_ok_inv (svc : ServiceBehavior)
    (vid v u ft lang : List Char) (tr : List TranscriptEntry)
    (h : fetch_transcript svc vid = .ok v u tr ft lang) :
    v = vid ∧ u = (("https://youtube.com/watch?v=").toList) ++ vid ∧
      ft = List.intercalate ((" ").toList) (tr.map TranscriptEntry.text) := by
  unfold fetch_transcript at h
  split at h
  · cases h
  · cases h
  · cases h
  · cases h
  · rename_i track heq
    cases hfe : svc.fetchEntries track with
    | ok entries =>
      rw [hfe] at h
      injection h with e1 e2 e3 e4 e5
      subst e1
      subst e2
      subst e3
      subst e4
      exact ⟨rfl, rfl, rfl⟩
    | error e =>
      rw [hfe] at h
      cases h

/-- A service behaviour whose listing succeeds with zero transcript
tracks; what the fetch stage would do is irrelevant on this path. -/
def svcEmptyListing : ServiceBehavior where
  listing := .ok []
  fetchEntries := fun _ => .error (.otherError [])

/-- Counterexample to C1: on a video whose upstream listing reports zero
transcript tracks, fetch transcript returns NETWORK ERROR, the uncaught
StopIteration of the first available fallback, not NO TRANSCRIPT. -/
theorem fetch_empty_listing_counterexample :
    fetch_transcript svcEmptyListing (("dQw4w9WgXcQ").toList) =
      .err (("Network or API error: ").toList) .NETWORK_ERROR ∧
    ErrorCode.NETWORK_ERROR ≠ ErrorCode.NO_TRANSCRIPT := by
  constructor
  · decide
  · decide

/-- C1 amended: NO TRANSCRIPT is produced exactly when the listing call
itself raises NoTranscriptFound, before any selection step; a listing that
succeeds with zero tracks instead reaches both fallback steps, whose final
first available step raises StopIteration, mapped to NETWORK ERROR. -/
theorem fetch_no_transcript_amended (svc : ServiceBehavior) (vid msg : List Char) :
    (svc.listing = .error (.noTranscriptFound msg) →
      fetch_transcript svc vid =
        .err (("No transcript available for this video").toList) .NO_TRANSCRIPT) ∧
    (svc.listing = .ok [] →
      fetch_transcript svc vid =
        .err (("Network or API error: ").toList) .NETWORK_ERROR) := by
  constructor
  · intro h
    unfold fetch_transcript listAndSelect
    rw [h]
  · intro h
    unfold fetch_transcript listAndSelect
    rw [h]
    simp [selectTranscript, find_transcript, find_generated_transcript,
      findLang, nextIter, enLangs, PyExc.message]

/-- A service behaviour whose listing call raises NoTranscriptFound. -/
def svcListingNoTF : ServiceBehavior where
  listing := .error (.noTranscriptFound [])
  fetchEntries := fun _ => .error (.otherError [])

/-- Witness for the amended C1, at both a listing that raises
NoTranscriptFound and a listing that succeeds with zero tracks. -/
theorem fetch_no_transcript_amended_witness :
    fetch_transcript svcListingNoTF (("dQw4w9WgXcQ").toList) =
      .err (("No transcript available for this video").toList) .NO_TRANSCRIPT ∧
    fetch_transcript svcEmptyListing (("dQw4w9WgXcQ").toList) =
      .err (("Network or API error: ").toList) .NETWORK_ERROR :=
  ⟨(fetch_no_transcript_amended svcListingNoTF (("dQw4w9WgXcQ").toList) []).1 rfl,
    (fetch_no_transcript_amended svcEmptyListing (("dQw4w9WgXcQ").toList) []).2 rfl⟩

/-- C4: for every success Result of fetch transcript, the full text field
equals the concatenation of the text of every transcript entry, in entry
order, joined with a single space separator. -/
theorem full_text_space_joined (svc : ServiceBehavior)
    (vid v u ft lang : List Char) (tr : List TranscriptEntry)
    (h : fetch_transcript svc vid = .ok v u tr ft lang) :
    ft = List.intercalate ((" ").toList) (tr.map TranscriptEntry.text) :=
  (fetch_transcript_ok_inv svc vid v u ft lang tr h).2.2

/-- A sample track and service behaviour on which the fetch succeeds. -/
def sampleTrack : TranscriptTrack where
  language_code := ("en").toList
  is_generated := false

/-- Sample raw entries returned by the fetch stage. -/
def sampleEntries : List TranscriptEntry :=
  [⟨("Hello").toList, 0, 1⟩, ⟨("world").toList, 1, 2⟩]

/-- A fully successful service behaviour offering one manual track. -/
def svcSample : ServiceBehavior where
  listing := .ok [sampleTrack]
  fetchEntries := fun _ => .ok sampleEntries

/-- Witness for C4 on the successful sample behaviour. -/
theorem full_text_space_joined_witness :
    ("Hello world").toList =
      List.intercalate ((" ").toList) (sampleEntries.map TranscriptEntry.text) :=
  full_text_space_joined svcSample (("dQw4w9WgXcQ").toList)
    (("dQw4w9WgXcQ").toList)
    ((("https://youtube.com/watch?v=").toList) ++ ("dQw4w9WgXcQ").toList)
    (("Hello world").toList) (("en").toList) sampleEntries (by decide)

/-- C5: fetch transcript is total over every service behaviour, and every
failure Result it produces carries one of the four error codes
NO TRANSCRIPT, TRANSCRIPT DISABLED, VIDEO NOT FOUND, NETWORK ERROR. -/
theorem fetch_error_code_taxonomy (svc : ServiceBehavior)
    (vid e : List Char) (c : ErrorCode)
    (h : fetch_transcript svc vid = .err e c) :
    c = .NO_TRANSCRIPT ∨ c = .TRANSCRIPT_DISABLED ∨
      c = .VIDEO_NOT_FOUND ∨ c = .NETWORK_ERROR := by
  unfold fetch_transcript at h
  split at h
  · injection h with e1 e2
    exact Or.inl e2.symm
  · injection h with e1 e2
    exact Or.inr (Or.inl e2.symm)
  · injection h with e1 e2
    exact Or.inr (Or.inr (Or.inl e2.symm))
  · injection h with e1 e2
    exact Or.inr (Or.inr (Or.inr e2.symm))
  · rename_i track heq
    cases hfe : svc.fetchEntries track with
    | ok entries =>
      rw [hfe] at h
      cases h
    | error exc =>
      rw [hfe] at h
      injection h with e1 e2
      exact Or.inr (Or.inr (Or.inr e2.symm))

/-- A service behaviour whose listing raises TranscriptsDisabled. -/
def svcDisabled : ServiceBehavior where
  listing := .error (.transcriptsDisabled [])
  fetchEntries := fun _ => .error (.otherError [])

/-- Witness for C5 on a listing that raises TranscriptsDisabled. -/
theorem fetch_error_code_taxonomy_witness :
    ErrorCode.TRANSCRIPT_DISABLED = ErrorCode.NO_TRANSCRIPT ∨
      ErrorCode.TRANSCRIPT_DISABLED = ErrorCode.TRANSCRIPT_DISABLED ∨
      ErrorCode.TRANSCRIPT_DISABLED = ErrorCode.VIDEO_NOT_FOUND ∨
      ErrorCode.TRANSCRIPT_DISABLED = ErrorCode.NETWORK_ERROR :=
  fetch_error_code_taxonomy svcDisabled (("dQw4w9WgXcQ").toList)
    (("Transcripts are disabled for this video").toList)
    ErrorCode.TRANSCRIPT_DISABLED (by decide)

/-- C6: the exit code of main is 0 exactly when the produced Result is a
success and 1 otherwise, and an input from which no video ID can be
extracted yields the INVALID URL failure Result with exit code 1. -/
theorem exit_code_matches_success (svc : ServiceBehavior) (url : List Char) :
    ((main svc url).2 = if isSuccess (main svc url).1 then 0 else 1) ∧
    (extract_video_id url = none →
      main svc url =
        (.err ((("Could not extract video ID from: ").toList) ++ url)
          .INVALID_URL, 1)) := by
  constructor
  · unfold main
    cases hx : extract_video_id url with
    | none => rfl
    | some vid =>
      dsimp only
      by_cases he : vid.isEmpty
      · rw [if_pos he]
        rfl
      · rw [if_neg he]
  · intro h
    unfold main
    rw [h]

/-- Witness for C6: the not a url input yields INVALID URL and exit 1. -/
theorem exit_code_matches_success_witness :
    main svcEmptyListing (("not a url").toList) =
      (.err ((("Could not extract video ID from: ").toList) ++ ("not a url").toList)
        .INVALID_URL, 1) :=
  (exit_code_matches_success svcEmptyListing (("not a url").toList)).2 (by decide)

/-- Helper for C7: when some track of the requested origin carries a
language of the preference list, the language scan finds a track, and the
track it finds is of the requested origin. -/
lemma findLang_finds (tl : List TranscriptTrack) (gen : Bool)
    (m : TranscriptTrack) (hm : m ∈ tl) (hgen : m.is_generated = gen) :
    ∀ langs, m.language_code ∈ langs →
      ∃ t, findLang tl gen langs = some t ∧ t.is_generated = gen := by
  intro langs
  induction langs with
  | nil =>
    intro h
    cases h
  | cons l ls ih =>
    intro h
    unfold findLang
    cases hf : tl.find? (fun t => t.language_code == l && t.is_generated == gen) with
    | some t =>
      refine ⟨t, rfl, ?_⟩
      have hp := List.find?_some hf
      simp only [Bool.and_eq_true, beq_iff_eq] at hp
      exact hp.2
    | none =>
      have hnone := List.find?_eq_none.mp hf m hm
      simp only [Bool.and_eq_true, beq_iff_eq, not_and] at hnone
      rcases List.mem_cons.mp h with hl | hls
      · exact absurd hgen (hnone hl)
      · exact ih hls

/-- C7: when the upstream listing offers both a manually-authored English
track and an auto-generated English track, the selection step picks a
manually-authored track, never the generated one. The selection calls of
the external library are modelled from the spec. -/
theorem manual_selected_over_generated (tl : List TranscriptTrack)
    (m g : TranscriptTrack)
    (hm : m ∈ tl) (hmlang : m.language_code ∈ enLangs) (hmman : m.is_generated = false)
    (hg : g ∈ tl) (hglang : g.language_code ∈ enLangs) (hggen : g.is_generated = true) :
    ∃ t, selectTranscript tl = Except.ok t ∧ t.is_generated = false := by
  obtain ⟨t, hfind, htman⟩ := findLang_finds tl false m hm hmman enLangs hmlang
  refine ⟨t, ?_, htman⟩
  unfold selectTranscript find_transcript
  rw [hfind]

/-- A listing offering a generated English track before a manual one. -/
def bothTracks : List TranscriptTrack :=
  [⟨("en").toList, true⟩, ⟨("en").toList, false⟩]

/-- Witness for C7 on a listing holding a generated and a manual English
track, the generated one listed first. -/
theorem manual_selected_over_generated_witness :
    ∃ t, selectTranscript bothTracks = Except.ok t ∧ t.is_generated = false :=
  manual_selected_over_generated bothTracks
    ⟨("en").toList, false⟩ ⟨("en").toList, true⟩
    (by decide) (by decide) rfl (by decide) (by decide) rfl

/-- C10: every success Result printed by main carries as url the canonical
watch url built from the extracted video ID, whatever URL shape the user
supplied; the video id field is that extracted ID. -/
theorem success_url_canonical (svc : ServiceBehavior)
    (url v u ft lang : List Char) (tr : List TranscriptEntry)
    (h : (main svc url).1 = .ok v u tr ft lang) :
    extract_video_id url = some v ∧
      u = (("https://youtube.com/watch?v=").toList) ++ v := by
  unfold main at h
  cases hx : extract_video_id url with
  | none =>
    rw [hx] at h
    cases h
  | some vid =>
    rw [hx] at h
    dsimp only at h
    by_cases he : vid.isEmpty
    · rw [if_pos he] at h
      cases h
    · rw [if_neg he] at h
      obtain ⟨hv, hu, _⟩ := fetch_transcript_ok_inv svc vid v u ft lang tr h
      subst hv
      exact ⟨rfl, hu⟩

/-- Witness for C10: a youtu.be input still yields the canonical watch
url in the success Result. -/
theorem success_url_canonical_witness :
    extract_video_id (("https://youtu.be/dQw4w9WgXcQ").toList) =
      some (("dQw4w9WgXcQ").toList) ∧
    (("https://youtube.com/watch?v=").toList) ++ ("dQw4w9WgXcQ").toList =
      (("https://youtube.com/watch?v=").toList) ++ ("dQw4w9WgXcQ").toList :=
  success_url_canonical svcSample (("https://youtu.be/dQw4w9WgXcQ").toList)
    (("dQw4w9WgXcQ").toList)
    ((("https://youtube.com/watch?v=").toList) ++ ("dQw4w9WgXcQ").toList)
    (("Hello world").toList) (("en").toList) sampleEntries (by decide)

end FetchYoutube
